import Mathlib

/-!
triton-service-groups: accounts and the group handlers

A shallow embedding of `accounts/account.go` (`Account.Save`, `Account.Exists`)
and of `groups/groups.go` (the `Get`, `Create`, `Update` and `Delete` handlers),
with the statements checked against it.

Conventions.
* Go `error` values are an inductive type; `nil` is `none`.
* `time.Time` is a natural number (an instant).
* Mutable things a function touches through a pointer (the connection pool,
  the receiver `*Account`, the `http.ResponseWriter`) are passed in and
  returned explicitly.
-/

namespace accounts

/-- Go `error` values that occur in `account.go`: the two package variables,
`pgx.ErrNoRows`, any other error reported by the driver, and
`errors.Wrap(cause, message)`. -/
inductive GoError where
  | ErrExists : GoError
  | ErrMissingID : GoError
  | ErrNoRows : GoError
  | driver (text : String) : GoError
  | Wrap (cause : GoError) (message : String) : GoError
  deriving DecidableEq, Repr

/-- The text of an error (`err.Error()`); `errors.Wrap` prefixes its message. -/
def GoError.Error : GoError → String
  | .ErrExists => "can't check existence without id or name"
  | .ErrMissingID => "missing identifer for save"
  | .ErrNoRows => "no rows in result set"
  | .driver text => text
  | .Wrap cause message => message ++ ": " ++ cause.Error

/-- Modelled from the spec: one row of the accounts table (the schema is not in
the source); the columns are the ones the SQL text of `account.go` names, plus
the soft-delete flag `archived` consulted by the existence check. -/
structure Row where
  id : String
  account_name : String
  triton_uuid : String
  key_id : Option String
  created_at : Nat
  updated_at : Nat
  archived : Bool
  deriving DecidableEq, Repr

/-- A statement sent to the pool, with its bound arguments: the `SELECT` of
`Exists` (`$1`, `$2`) and the `UPDATE` of `Save` (`$1` .. `$5`). -/
inductive Statement where
  | selectExists (id account_name : String) : Statement
  | updateAccount (id account_name triton_uuid : String) (key_id : Option String)
      (updated_at : Nat) : Statement
  deriving DecidableEq, Repr

/-- Modelled from the spec: the relational store behind `a.store.pool` (the
`Store` type and the database are not in the source): the rows of the accounts
table, an optional fault with which every statement fails (connectivity and the
like), and the statements received so far. -/
structure Pool where
  rows : List Row
  fault : Option String
  issued : List Statement
  deriving DecidableEq, Repr

/-- The `WHERE` clause of the query in `Exists`:
`(id = $1 OR account_name = $2) AND archived = false`. -/
def existsWhere (id account_name : String) (r : Row) : Bool :=
  (r.id == id || r.account_name == account_name) && r.archived == false

/-- The call `pool.QueryRowEx(ctx, query, nil, $1, $2).Scan(&count)` of `Exists`:
the statement reaches the pool; the result is `nil` when a row is selected,
`pgx.ErrNoRows` when none is, and the driver's error when the query fails. -/
def Pool.QueryRowEx (p : Pool) (id account_name : String) : Pool × Option GoError :=
  let p1 := { p with issued := p.issued ++ [Statement.selectExists id account_name] }
  match p.fault with
  | some text => (p1, some (GoError.driver text))
  | none =>
    if p.rows.any (existsWhere id account_name) then (p1, none)
    else (p1, some GoError.ErrNoRows)

/-- The call `pool.ExecEx(ctx, query, nil, $1, .., $5)` of `Save`:
`UPDATE tsg_accounts SET (account_name, triton_uuid, key_id, updated_at) =
($2, $3, $4, $5) WHERE id = $1`. -/
def Pool.ExecEx (p : Pool) (id account_name triton_uuid : String)
    (key_id : Option String) (updated_at : Nat) : Pool × Option GoError :=
  let stmt := Statement.updateAccount id account_name triton_uuid key_id updated_at
  match p.fault with
  | some text => ({ p with issued := p.issued ++ [stmt] }, some (GoError.driver text))
  | none =>
    ({ p with
        rows := p.rows.map (fun r =>
          if r.id == id then
            { r with account_name := account_name, triton_uuid := triton_uuid,
                     key_id := key_id, updated_at := updated_at }
          else r),
        issued := p.issued ++ [stmt] }, none)

/-- The data of a `tsg_accounts` row held by the program (`type Account struct`);
the `store` pointer is the `Pool` passed alongside. -/
structure Account where
  ID : String
  AccountName : String
  TritonUUID : String
  KeyID : String
  CreatedAt : Nat
  UpdatedAt : Nat
  deriving DecidableEq, Repr

/-- The identifier `Exists` binds to `$1` when the account has no ID. -/
def zeroUUID : String := "00000000-0000-0000-0000-000000000000"

/-- `func (a *Account) Save(ctx) error`. `now` is the value of `time.Now()`;
`uuidSet` is `pgtype.UUID.Set` on a string (`none` when the text parses).
Returns the error, the account after the call and the pool after the call. -/
def Account.Save (a : Account) (pool : Pool) (now : Nat)
    (uuidSet : String → Option GoError) : Option GoError × Account × Pool :=
  if a.ID == "" then
    (some GoError.ErrMissingID, a, pool)
  else
    let updatedAt := now
    let keyID : Except GoError (Option String) :=
      if a.KeyID == "" then
        .ok none
      else
        match uuidSet a.KeyID with
        | some err => .error (GoError.Wrap err "failed to parse KeyID")
        | none => .ok (some a.KeyID)
    match keyID with
    | .error err => (some err, a, pool)
    | .ok keyID =>
      match pool.ExecEx a.ID a.AccountName a.TritonUUID keyID updatedAt with
      | (pool1, some err) => (some (GoError.Wrap err "failed to save account"), a, pool1)
      | (pool1, none) => (none, { a with UpdatedAt := updatedAt }, pool1)

/-- `func (a *Account) Exists(ctx) (bool, error)`. Returns the pair of the Go
function and the pool after the call. -/
def Account.Exists (a : Account) (pool : Pool) : (Bool × Option GoError) × Pool :=
  if a.AccountName == "" && a.ID == "" then
    ((false, some GoError.ErrExists), pool)
  else
    let accountID := if a.ID != "" then a.ID else zeroUUID
    match pool.QueryRowEx accountID a.AccountName with
    | (pool1, none) => ((true, none), pool1)
    | (pool1, some GoError.ErrNoRows) => ((false, none), pool1)
    | (pool1, some err) =>
      ((false, some (GoError.Wrap err "failed to check account existence")), pool1)

end accounts

namespace groups_v1

/-- The `type ServiceGroup struct` of `groups.go`. -/
structure ServiceGroup where
  ID : Int
  GroupName : String
  TemplateId : Int
  AccountId : String
  Capacity : Int
  HealthCheckInterval : Int
  deriving DecidableEq, Repr

/-- The two causes a `strconv.NumError` carries. -/
inductive NumErrorKind where
  | ErrSyntax : NumErrorKind
  | ErrRange : NumErrorKind
  deriving DecidableEq, Repr

/-- Go `error` values seen by the handlers: the `*strconv.NumError` of `Atoi`
(function name, input, cause) and any other error, given by its text. -/
inductive GoError where
  | NumError (Func : String) (Num : String) (Err : NumErrorKind) : GoError
  | text (message : String) : GoError
  deriving DecidableEq, Repr

/-- Width of Go's `int` on the platforms the service is built for. -/
def intSize : Nat := 64

/-- The digit loop of the library function `strconv.ParseUint(s, 10, 0)`, with
`n` the value read so far: a byte that is not a decimal digit is a syntax
error; a digit that would take the value past the 64-bit unsigned range is a
range error, reported at that digit with the largest value. -/
def parseUintLoop (n : Nat) : List Char → Nat × Option NumErrorKind
  | [] => (n, none)
  | c :: cs =>
    if '0' ≤ c ∧ c ≤ '9' then
      if (2 ^ 64 - 1) / 10 + 1 ≤ n then
        (2 ^ intSize - 1, some NumErrorKind.ErrRange)
      else if 2 ^ intSize - 1 < n * 10 + (c.toNat - '0'.toNat) then
        (2 ^ intSize - 1, some NumErrorKind.ErrRange)
      else
        parseUintLoop (n * 10 + (c.toNat - '0'.toNat)) cs
    else
      (0, some NumErrorKind.ErrSyntax)

/-- The library function `strconv.ParseUint(s, 10, 0)`: the empty string is a
syntax error. -/
def ParseUint (s : List Char) : Nat × Option NumErrorKind :=
  if s.isEmpty then (0, some NumErrorKind.ErrSyntax) else parseUintLoop 0 s

/-- The library function `strconv.ParseInt(s, 10, 0)`: picks off a leading
sign, converts the rest unsigned, and checks the range of `int`; on a range
error the value is the nearest one of the range. -/
def ParseInt (s : String) : Int × Option GoError :=
  if s.data.isEmpty then
    (0, some (GoError.NumError "ParseInt" s NumErrorKind.ErrSyntax))
  else
    let neg := s.data.head? == some '-'
    let rest :=
      match s.data with
      | '+' :: cs => cs
      | '-' :: cs => cs
      | cs => cs
    match ParseUint rest with
    | (_, some NumErrorKind.ErrSyntax) =>
      (0, some (GoError.NumError "ParseInt" s NumErrorKind.ErrSyntax))
    | (un, _) =>
      let cutoff : Nat := 2 ^ (intSize - 1)
      if !neg && cutoff ≤ un then
        ((cutoff : Int) - 1, some (GoError.NumError "ParseInt" s NumErrorKind.ErrRange))
      else if neg && cutoff < un then
        (-(cutoff : Int), some (GoError.NumError "ParseInt" s NumErrorKind.ErrRange))
      else
        (if neg then -(un : Int) else (un : Int), none)

/-- The library function `strconv.Atoi`, returning `(int, error)`: the result
of `ParseInt(s, 10, 0)`, with the function name in a `*NumError` set to
`Atoi`. (Its fast path for short strings gives the same results.) -/
def Atoi (s : String) : Int × Option GoError :=
  match ParseInt s with
  | (i64, some (GoError.NumError _ num err)) => (i64, some (GoError.NumError "Atoi" num err))
  | (i64, err) => (i64, err)

/-- `http.StatusInternalServerError`. -/
def StatusInternalServerError : Nat := 500

/-- `http.StatusNoContent`. -/
def StatusNoContent : Nat := 204

/-- `http.StatusNotFound`, the status `http.NotFound` replies with. -/
def StatusNotFound : Nat := 404

/-- `http.StatusOK`, the status an unannounced `Write` commits. -/
def StatusOK : Nat := 200

/-- The client-error class of HTTP statuses (4xx), to which bad request belongs. -/
def isClientError (code : Nat) : Bool := 400 ≤ code && code < 500

/-- The server-error class of HTTP statuses (5xx). -/
def isServerError (code : Nat) : Bool := 500 ≤ code && code < 600

/-- What a handler does, in order: the calls into the group store and the
orchestrator client (with their arguments) and the calls on the
`http.ResponseWriter`. `Error err code` is `http.Error(w, err.Error(), code)`. -/
inductive Event where
  | FindGroupByID (key : Int) (accountId : String) : Event
  | FindGroupByName (name : String) (accountId : String) : Event
  | SaveGroup (accountId : String) (group : Option ServiceGroup) : Event
  | UpdateGroup (identifier : String) (accountId : String) (group : Option ServiceGroup) : Event
  | RemoveGroup (key : Int) (accountId : String) : Event
  | SubmitOrchestratorJob (accountId : String) (group : Option ServiceGroup) : Event
  | UpdateOrchestratorJob (accountId : String) (group : Option ServiceGroup) : Event
  | DeleteOrchestratorJob (accountId : String) (group : Option ServiceGroup) : Event
  | Error (err : GoError) (code : Nat) : Event
  | NotFound : Event
  | HeaderSet (key value : String) : Event
  | WriteHeader (code : Nat) : Event
  | Write (bytes : String) : Event
  deriving DecidableEq, Repr

/-- Calls that write to the group store. -/
def Event.isStoreWrite : Event → Bool
  | .SaveGroup _ _ => true
  | .UpdateGroup _ _ _ => true
  | .RemoveGroup _ _ => true
  | _ => false

/-- Calls that reach the orchestrator. -/
def Event.isOrchestratorCall : Event → Bool
  | .SubmitOrchestratorJob _ _ => true
  | .UpdateOrchestratorJob _ _ => true
  | .DeleteOrchestratorJob _ _ => true
  | _ => false

/-- The status line of the response: the first call on the writer that commits
one decides it (`http.Error`, `http.NotFound`, `WriteHeader`, or a `Write`,
which commits 200); `none` when the handler wrote nothing. -/
def statusCode : List Event → Option Nat
  | [] => none
  | .Error _ code :: _ => some code
  | .NotFound :: _ => some StatusNotFound
  | .WriteHeader code :: _ => some code
  | .Write _ :: _ => some StatusOK
  | _ :: rest => statusCode rest

/-- Outcome of a call into code outside `groups.go`: it returns a value and
leaves the world in some state, or it panics. -/
inductive Call (σ α : Type) where
  | ret (world : σ) (value : α) : Call σ α
  | panic (world : σ) : Call σ α
  deriving DecidableEq, Repr

/-- The functions `groups.go` calls but does not define, as parameters. `σ` is
the state behind `session.DbPool` and the orchestrator. The store writers are
called as statements: the caller reads no result from them (whatever value
they may return is discarded), so a failure can reach it only as a call that
does not return. The helpers read the group they are handed.
`Unmarshal` is `json.Unmarshal(body, &group)` on a nil `group` (the pointer
afterwards, and the error); `Marshal` is `json.Marshal` of a `*ServiceGroup`. -/
structure Env (σ : Type) where
  Unmarshal : String → Option ServiceGroup × Option GoError
  Marshal : Option ServiceGroup → String × Option GoError
  FindGroupByID : σ → Int → String → Call σ (Option ServiceGroup × Bool)
  FindGroupByName : σ → String → String → Call σ (Option ServiceGroup × Bool)
  SaveGroup : σ → String → Option ServiceGroup → Call σ (Option GoError)
  UpdateGroup : σ → String → String → Option ServiceGroup → Call σ (Option GoError)
  RemoveGroup : σ → Int → String → Call σ (Option GoError)
  SubmitOrchestratorJob : σ → String → Option ServiceGroup → Call σ (Option GoError)
  UpdateOrchestratorJob : σ → String → Option ServiceGroup → Call σ (Option GoError)
  DeleteOrchestratorJob : σ → String → Option ServiceGroup → Call σ (Option GoError)

/-- The fields of `session.TsgSession` the handlers read besides `DbPool`. -/
structure TsgSession where
  AccountId : String
  deriving DecidableEq, Repr

/-- The parts of `*http.Request` the handlers read: `mux.Vars(r)["identifier"]`,
`r.URL.Path`, and what `ioutil.ReadAll(r.Body)` returns (bytes and error). -/
structure Request where
  identifier : String
  path : String
  body : String
  readErr : Option GoError
  deriving DecidableEq, Repr

/-- State threaded through a handler: the world and the events so far. -/
structure HState (σ : Type) where
  world : σ
  trace : List Event

/-- A handler step either yields a value or panics; both keep the state. -/
inductive Step (σ α : Type) where
  | ok (value : α) (s : HState σ) : Step σ α
  | panic (s : HState σ) : Step σ α

/-- Computations of a handler body. -/
def Handler (σ α : Type) : Type := HState σ → Step σ α

/-- Sequencing: a panic ends the handler. -/
def Handler.bind {σ α β : Type} (m : Handler σ α) (f : α → Handler σ β) : Handler σ β :=
  fun s =>
    match m s with
    | .ok a s1 => f a s1
    | .panic s1 => .panic s1

instance {σ : Type} : Monad (Handler σ) where
  pure a := fun s => .ok a s
  bind := Handler.bind

/-- Record a call on the response writer. -/
def emit {σ : Type} (e : Event) : Handler σ Unit :=
  fun s => .ok () { s with trace := s.trace ++ [e] }

/-- Call an outside function, recording the call. -/
def call {σ α : Type} (e : Event) (f : σ → Call σ α) : Handler σ α :=
  fun s =>
    match f s.world with
    | .ret w a => .ok a { world := w, trace := s.trace ++ [e] }
    | .panic w => .panic { world := w, trace := s.trace ++ [e] }

/-- Selecting a field through a `*ServiceGroup`: a nil pointer panics. -/
def deref {σ : Type} : Option ServiceGroup → Handler σ ServiceGroup
  | some g => fun s => .ok g s
  | none => fun s => .panic s

/-- `http.Error(w, err.Error(), code)`. -/
def httpError {σ : Type} (err : GoError) (code : Nat) : Handler σ Unit :=
  emit (Event.Error err code)

/-- `func writeJsonResponse(w, bytes)`: sets the content type and writes the
bytes; a failed or short write is only logged. -/
def writeJsonResponse {σ : Type} (bytes : String) : Handler σ Unit := do
  emit (Event.HeaderSet "Content-Type" "application/json; charset=UTF-8")
  emit (Event.Write bytes)

/-- `func Get(session) http.HandlerFunc`. -/
def Get {σ : Type} (env : Env σ) (session : TsgSession) (r : Request) : Handler σ Unit := do
  let identifier := r.identifier
  let (id, err) := Atoi identifier
  if let some e := err then
    httpError e StatusInternalServerError
    return
  let (group, ok) ← call (Event.FindGroupByID id session.AccountId)
    (fun w => env.FindGroupByID w id session.AccountId)
  if !ok then
    emit Event.NotFound
    return
  let (bytes, err) := env.Marshal group
  if let some e := err then
    httpError e StatusInternalServerError
  writeJsonResponse bytes

/-- `func Create(session) http.HandlerFunc`. -/
def Create {σ : Type} (env : Env σ) (session : TsgSession) (r : Request) : Handler σ Unit := do
  let body := r.body
  if let some e := r.readErr then
    httpError e StatusInternalServerError
  let (group, err) := env.Unmarshal body
  if let some e := err then
    httpError e StatusInternalServerError
  let _ ← call (Event.SaveGroup session.AccountId group)
    (fun w => env.SaveGroup w session.AccountId group)
  let err ← call (Event.SubmitOrchestratorJob session.AccountId group)
    (fun w => env.SubmitOrchestratorJob w session.AccountId group)
  if let some e := err then
    httpError e StatusInternalServerError
    return
  let g ← deref group
  emit (Event.HeaderSet "Location" (r.path ++ "/" ++ g.GroupName))
  let (com, ok) ← call (Event.FindGroupByName g.GroupName session.AccountId)
    (fun w => env.FindGroupByName w g.GroupName session.AccountId)
  if !ok then
    emit Event.NotFound
    return
  let (bytes, err) := env.Marshal com
  if let some e := err then
    httpError e StatusInternalServerError
  writeJsonResponse bytes

/-- `func Update(session) http.HandlerFunc`. -/
def Update {σ : Type} (env : Env σ) (session : TsgSession) (r : Request) : Handler σ Unit := do
  let identifier := r.identifier
  let body := r.body
  if let some e := r.readErr then
    httpError e StatusInternalServerError
  let (group, err) := env.Unmarshal body
  if let some e := err then
    httpError e StatusInternalServerError
  let _ ← call (Event.UpdateGroup identifier session.AccountId group)
    (fun w => env.UpdateGroup w identifier session.AccountId group)
  let err ← call (Event.UpdateOrchestratorJob session.AccountId group)
    (fun w => env.UpdateOrchestratorJob w session.AccountId group)
  if let some e := err then
    httpError e StatusInternalServerError
    return
  let g ← deref group
  let (com, ok) ← call (Event.FindGroupByID g.ID session.AccountId)
    (fun w => env.FindGroupByID w g.ID session.AccountId)
  if !ok then
    emit Event.NotFound
    return
  let (bytes, err) := env.Marshal com
  if let some e := err then
    httpError e StatusInternalServerError
  writeJsonResponse bytes

/-- `func Delete(session) http.HandlerFunc`. -/
def Delete {σ : Type} (env : Env σ) (session : TsgSession) (r : Request) : Handler σ Unit := do
  let identifier := r.identifier
  let (id, err) := Atoi identifier
  if let some e := err then
    httpError e StatusInternalServerError
    return
  let (group, ok) ← call (Event.FindGroupByID id session.AccountId)
    (fun w => env.FindGroupByID w id session.AccountId)
  if !ok then
    emit Event.NotFound
    return
  let g ← deref group
  let _ ← call (Event.RemoveGroup g.ID session.AccountId)
    (fun w => env.RemoveGroup w g.ID session.AccountId)
  let err ← call (Event.DeleteOrchestratorJob session.AccountId group)
    (fun w => env.DeleteOrchestratorJob w session.AccountId group)
  if let some e := err then
    httpError e StatusInternalServerError
    return
  emit (Event.WriteHeader StatusNoContent)

/-- What serving one request left behind. -/
structure Outcome (σ : Type) where
  world : σ
  trace : List Event
  panicked : Bool
  deriving DecidableEq, Repr

/-- Run a handler on a request from a world, with an untouched writer. -/
def serve {σ : Type} (h : Handler σ Unit) (w : σ) : Outcome σ :=
  match h { world := w, trace := [] } with
  | .ok _ s => { world := s.world, trace := s.trace, panicked := false }
  | .panic s => { world := s.world, trace := s.trace, panicked := true }

/-- Modelled from the spec: the state behind the group store and the
orchestrator (neither is in the source), as the in-memory double the spec
describes: the rows of the groups table (`AccountId` is the owner), the next
store-assigned id, the jobs the orchestrator holds (owner and group name), and
an optional fault of each system. -/
structure World where
  groups : List ServiceGroup
  nextID : Int
  jobs : List (String × String)
  storeFault : Option String
  orchestratorFault : Option String
  deriving DecidableEq, Repr

/-- Modelled from the spec: `findByID(accountID, groupID)` of the group record
adapter (`FindGroupByID`, not in the source): found-or-not, scoped by account. -/
def memFindGroupByID (w : World) (key : Int) (accountId : String) :
    Call World (Option ServiceGroup × Bool) :=
  let found := w.groups.find? (fun g => g.ID == key && g.AccountId == accountId)
  .ret w (found, found.isSome)

/-- Modelled from the spec: `findByName(accountID, groupName)` of the group
record adapter (`FindGroupByName`, not in the source). -/
def memFindGroupByName (w : World) (name : String) (accountId : String) :
    Call World (Option ServiceGroup × Bool) :=
  let found := w.groups.find? (fun g => g.GroupName == name && g.AccountId == accountId)
  .ret w (found, found.isSome)

/-- Modelled from the spec: `save(accountID, group)` on the create path
(`SaveGroup`, not in the source): inserts the row under the account with a
store-assigned id. A failed save aborts the operation in progress: `Create`
calls it as a statement and reads no result, so the call does not return when
the store is at fault. A nil group cannot be read. -/
def memSaveGroup (w : World) (accountId : String) :
    Option ServiceGroup → Call World (Option GoError)
  | none => .panic w
  | some g =>
    match w.storeFault with
    | some _ => .panic w
    | none =>
      .ret { w with groups := w.groups ++ [{ g with ID := w.nextID, AccountId := accountId }],
                    nextID := w.nextID + 1 } none

/-- Modelled from the spec: `save(accountID, group)` on the update path
(`UpdateGroup`, not in the source): full-field update of the row the identifier
addresses, scoped to the account. Called as a statement like `SaveGroup`: it
does not return when the store is at fault. -/
def memUpdateGroup (w : World) (identifier : String) (accountId : String) :
    Option ServiceGroup → Call World (Option GoError)
  | none => .panic w
  | some g =>
    match w.storeFault with
    | some _ => .panic w
    | none =>
      .ret { w with groups := w.groups.map (fun row =>
        if Atoi identifier = (row.ID, none) ∧ row.AccountId = accountId then
          { row with GroupName := g.GroupName, TemplateId := g.TemplateId,
                     Capacity := g.Capacity, HealthCheckInterval := g.HealthCheckInterval }
        else row) } none

/-- Modelled from the spec: `remove(accountID, groupID)` of the group record
adapter (`RemoveGroup`, not in the source): deletes the row scoped to the
account; removing an absent id succeeds. Called as a statement like
`SaveGroup`: it does not return when the store is at fault. -/
def memRemoveGroup (w : World) (key : Int) (accountId : String) : Call World (Option GoError) :=
  match w.storeFault with
  | some _ => .panic w
  | none =>
    let kept := w.groups.filter (fun g => !(g.ID == key && g.AccountId == accountId))
    .ret { w with groups := kept } none

/-- Modelled from the spec: the orchestrator client's `submit`
(`SubmitOrchestratorJob`, not in the source): one remote request, failing with
the remote status when the orchestrator is at fault. -/
def memSubmitOrchestratorJob (w : World) (accountId : String) :
    Option ServiceGroup → Call World (Option GoError)
  | none => .panic w
  | some g =>
    match w.orchestratorFault with
    | some text => .ret w (some (GoError.text text))
    | none => .ret { w with jobs := w.jobs ++ [(accountId, g.GroupName)] } none

/-- Modelled from the spec: the orchestrator client's `update`
(`UpdateOrchestratorJob`, not in the source). -/
def memUpdateOrchestratorJob (w : World) (_accountId : String) :
    Option ServiceGroup → Call World (Option GoError)
  | none => .panic w
  | some _ =>
    match w.orchestratorFault with
    | some text => .ret w (some (GoError.text text))
    | none => .ret w none

/-- Modelled from the spec: the orchestrator client's `delete`
(`DeleteOrchestratorJob`, not in the source). -/
def memDeleteOrchestratorJob (w : World) (accountId : String) :
    Option ServiceGroup → Call World (Option GoError)
  | none => .panic w
  | some g =>
    match w.orchestratorFault with
    | some text => .ret w (some (GoError.text text))
    | none =>
      let kept := w.jobs.filter (fun j => !(j == (accountId, g.GroupName)))
      .ret { w with jobs := kept } none

/-- The in-memory environment, for a given JSON decoder and encoder. -/
def memEnv (unmarshal : String → Option ServiceGroup × Option GoError)
    (marshal : Option ServiceGroup → String × Option GoError) : Env World where
  Unmarshal := unmarshal
  Marshal := marshal
  FindGroupByID := memFindGroupByID
  FindGroupByName := memFindGroupByName
  SaveGroup := memSaveGroup
  UpdateGroup := memUpdateGroup
  RemoveGroup := memRemoveGroup
  SubmitOrchestratorJob := memSubmitOrchestratorJob
  UpdateOrchestratorJob := memUpdateOrchestratorJob
  DeleteOrchestratorJob := memDeleteOrchestratorJob

/-- What `json.Marshal` gives for a `*ServiceGroup` whose strings need no
escaping; it does not fail on this type. -/
def marshalGroup : Option ServiceGroup → String × Option GoError
  | none => ("null", none)
  | some g =>
    ("\x7b\"id\":" ++ toString g.ID ++ ",\"group_name\":\"" ++ g.GroupName ++
      "\",\"template_id\":" ++ toString g.TemplateId ++ ",\"account_id\":\"" ++ g.AccountId ++
      "\",\"capacity\":" ++ toString g.Capacity ++ ",\"health_check_interval\":" ++
      toString g.HealthCheckInterval ++ "\x7d", none)

/-- A request body: a complete group without an `id`. -/
def bodyWeb : String :=
  "\x7b\"group_name\":\"web\",\"template_id\":7,\"capacity\":3,\"health_check_interval\":30\x7d"

/-- A request body: a complete group whose `id` is 2. -/
def bodyApi : String :=
  "\x7b\"id\":2,\"group_name\":\"api\",\"template_id\":7,\"capacity\":5,\"health_check_interval\":30\x7d"

/-- A request body that does not decode into a `ServiceGroup`: `capacity` is a string. -/
def bodyBadCapacity : String :=
  "\x7b\"group_name\":\"web\",\"capacity\":\"three\"\x7d"

/-- What `json.Unmarshal` gives on the request bodies above: the decoded group
for `bodyWeb` and `bodyApi`; for `bodyBadCapacity` the group decoded as far as
possible together with a type error; for any other text a syntax error that
leaves the pointer nil. -/
def unmarshalSample (body : String) : Option ServiceGroup × Option GoError :=
  if body = bodyWeb then
    (some ⟨0, "web", 7, "", 3, 30⟩, none)
  else if body = bodyApi then
    (some ⟨2, "api", 7, "", 5, 30⟩, none)
  else if body = bodyBadCapacity then
    (some ⟨0, "web", 0, "", 0, 0⟩,
      some (GoError.text
        "json: cannot unmarshal string into Go struct field ServiceGroup.capacity of type int"))
  else
    (none, some (GoError.text "invalid character in JSON input"))

/-- The in-memory environment with the sample decoder and the encoder. -/
def sampleEnv : Env World := memEnv unmarshalSample marshalGroup

/-- A store holding two groups of account `acct-1`, both systems healthy. -/
def sampleWorld : World :=
  { groups := [⟨1, "web", 7, "acct-1", 3, 30⟩, ⟨2, "db", 9, "acct-1", 1, 60⟩],
    nextID := 3, jobs := [("acct-1", "web"), ("acct-1", "db")],
    storeFault := none, orchestratorFault := none }

/-- The session of account `acct-1`. -/
def sampleSession : TsgSession := { AccountId := "acct-1" }

/-- The same store with the store at fault. -/
def storeDownWorld : World := { sampleWorld with storeFault := some "connection refused" }

/-- The same store with the orchestrator at fault. -/
def orchestratorDownWorld : World := { sampleWorld with orchestratorFault := some "503" }

/-- An empty store, both systems healthy. -/
def emptyWorld : World :=
  { groups := [], nextID := 1, jobs := [], storeFault := none, orchestratorFault := none }

/-- A request addressing a group by the given identifier, without a body. -/
def requestFor (identifier : String) : Request :=
  { identifier := identifier, path := "/v1/tsg/groups/" ++ identifier, body := "",
    readErr := none }

/-- A create request with the given body. -/
def createRequest (body : String) : Request :=
  { identifier := "", path := "/v1/tsg/groups", body := body, readErr := none }

/-- An update request for the given identifier with the given body. -/
def updateRequest (identifier body : String) : Request :=
  { identifier := identifier, path := "/v1/tsg/groups/" ++ identifier, body := body,
    readErr := none }

/-- The store writes and orchestrator calls of a trace, in order. -/
def effects (trace : List Event) : List Event :=
  trace.filter (fun e => e.isStoreWrite || e.isOrchestratorCall)

end groups_v1

namespace accounts

/-- An account known by name only. -/
def alice : Account :=
  { ID := "", AccountName := "alice", TritonUUID := "", KeyID := "", CreatedAt := 0,
    UpdatedAt := 0 }

/-- An account with neither ID nor name. -/
def blank : Account :=
  { ID := "", AccountName := "", TritonUUID := "c0ffee", KeyID := "k", CreatedAt := 4,
    UpdatedAt := 5 }

/-- A stored account whose id is the all-zero identifier and whose name is not `alice`. -/
def zeroRow : Row :=
  { id := "00000000-0000-0000-0000-000000000000", account_name := "bob", triton_uuid := "",
    key_id := none, created_at := 1, updated_at := 1, archived := false }

/-- A healthy pool holding only `zeroRow`. -/
def zeroPool : Pool := { rows := [zeroRow], fault := none, issued := [] }

/-- A pool that fails every statement. -/
def downPool : Pool := { rows := [zeroRow], fault := some "connection refused", issued := [] }

end accounts

/-! ## Accounts -/

namespace accounts

/-- C1: an account whose ID and AccountName are both empty makes `Exists`
return `(false, ErrExists)`, and the pool is left exactly as it was: no
statement was issued. -/
theorem Exists_without_id_or_name (a : Account) (pool : Pool)
    (hid : a.ID = "") (hname : a.AccountName = "") :
    a.Exists pool = ((false, some GoError.ErrExists), pool) := by
  simp [Account.Exists, hid, hname]

/-- C1, at the blank account on a pool that would fail any statement. -/
theorem Exists_without_id_or_name_witness :
    blank.ID = "" ∧ blank.AccountName = "" ∧
      blank.Exists downPool = ((false, some GoError.ErrExists), downPool) :=
  ⟨rfl, rfl, Exists_without_id_or_name blank downPool rfl rfl⟩

/-- C2: an account whose ID is empty makes `Save` return `ErrMissingID`; the
pool (rows and statements issued) and every field of the account, `UpdatedAt`
included, are unchanged, whatever the other fields, the clock and the key
parser are. -/
theorem Save_without_id (a : Account) (pool : Pool) (now : Nat)
    (uuidSet : String → Option GoError) (hid : a.ID = "") :
    a.Save pool now uuidSet = (some GoError.ErrMissingID, a, pool) := by
  simp [Account.Save, hid]

/-- C2, at the blank account (which has a key and a Triton UUID set). -/
theorem Save_without_id_witness :
    blank.ID = "" ∧
      blank.Save zeroPool 99 (fun _ => none) = (some GoError.ErrMissingID, blank, zeroPool) :=
  ⟨rfl, Save_without_id blank zeroPool 99 (fun _ => none) rfl⟩

/-- C7 as stated fails: `alice` has no ID and a name no row carries, yet
`Exists` answers true, because the identifier substituted for the unset ID
equals the id of a stored row. -/
theorem Exists_zero_id_collides :
    alice.ID = "" ∧ alice.AccountName ≠ "" ∧
      (alice.Exists zeroPool).1 = (true, none) ∧
      ¬ ∃ r ∈ zeroPool.rows, r.archived = false ∧ r.account_name = alice.AccountName := by
  decide

/-- C7, amended: for an account with empty ID and non-empty AccountName,
`Exists` answers true only if some non-archived row has that account name or
has the all-zero identifier as its id. -/
theorem Exists_by_name_only_if (a : Account) (pool : Pool)
    (hid : a.ID = "") (hname : a.AccountName ≠ "")
    (htrue : (a.Exists pool).1.1 = true) :
    ∃ r ∈ pool.rows, r.archived = false ∧
      (r.account_name = a.AccountName ∨ r.id = zeroUUID) := by
  simp only [Account.Exists, hid, hname, Pool.QueryRowEx] at htrue
  cases hf : pool.fault with
  | some text => simp [hf, hname] at htrue
  | none =>
    simp only [hf] at htrue
    by_cases hany : pool.rows.any (existsWhere zeroUUID a.AccountName) = true
    · obtain ⟨r, hr, hw⟩ := List.any_eq_true.mp hany
      refine ⟨r, hr, ?_⟩
      simp only [existsWhere, Bool.and_eq_true, Bool.or_eq_true, beq_iff_eq] at hw
      exact ⟨hw.2, hw.1.symm⟩
    · simp [hany, hname] at htrue

end accounts

namespace accounts

/-- C7, amended, at `alice` on the pool whose only row has the all-zero id. -/
theorem Exists_by_name_only_if_witness :
    alice.ID = "" ∧ alice.AccountName ≠ "" ∧ (alice.Exists zeroPool).1.1 = true ∧
      ∃ r ∈ zeroPool.rows, r.archived = false ∧
        (r.account_name = alice.AccountName ∨ r.id = zeroUUID) :=
  ⟨rfl, by decide, by decide,
    Exists_by_name_only_if alice zeroPool rfl (by decide) (by decide)⟩

/-- C8: for an account with an ID or a name, `Exists` maps the outcome of its
query to one of three results: `(true, nil)` when a row came back,
`(false, nil)` when the query reported `pgx.ErrNoRows`, and `(false, err)`
with `err` wrapping the cause for any other error; it never returns true
together with an error. -/
theorem Exists_tri_state (a : Account) (pool : Pool)
    (hsome : a.ID ≠ "" ∨ a.AccountName ≠ "") :
    (∀ pool1, pool.QueryRowEx (if a.ID != "" then a.ID else zeroUUID) a.AccountName
        = (pool1, none) → a.Exists pool = ((true, none), pool1)) ∧
    (∀ pool1, pool.QueryRowEx (if a.ID != "" then a.ID else zeroUUID) a.AccountName
        = (pool1, some GoError.ErrNoRows) → a.Exists pool = ((false, none), pool1)) ∧
    (∀ pool1 cause, pool.QueryRowEx (if a.ID != "" then a.ID else zeroUUID) a.AccountName
        = (pool1, some cause) → cause ≠ GoError.ErrNoRows →
        a.Exists pool =
          ((false, some (GoError.Wrap cause "failed to check account existence")), pool1)) ∧
    ¬ ((a.Exists pool).1.1 = true ∧ (a.Exists pool).1.2 ≠ none) := by
  have hguard : (a.AccountName == "" && a.ID == "") = false := by
    rcases hsome with h | h <;> simp [h]
  refine ⟨?_, ?_, ?_, ?_⟩
  · intro pool1 hq
    simp only [Account.Exists, hguard, hq]
    rfl
  · intro pool1 hq
    simp only [Account.Exists, hguard, hq]
    rfl
  · intro pool1 cause hq hne
    simp only [Account.Exists, hguard, hq]
    cases cause with
    | ErrNoRows => exact absurd rfl hne
    | _ => rfl
  · simp only [Account.Exists, hguard]
    rcases hq : pool.QueryRowEx (if a.ID != "" then a.ID else zeroUUID) a.AccountName
      with ⟨pool1, err⟩
    cases err with
    | none => simp
    | some cause => cases cause <;> simp

/-- C8, at `alice` on a healthy pool and on a failing one. -/
theorem Exists_tri_state_witness :
    (alice.ID ≠ "" ∨ alice.AccountName ≠ "") ∧
      alice.Exists zeroPool = ((true, none),
        { zeroPool with issued := [Statement.selectExists zeroUUID "alice"] }) ∧
      alice.Exists downPool =
        ((false, some (GoError.Wrap (GoError.driver "connection refused")
          "failed to check account existence")),
        { downPool with issued := [Statement.selectExists zeroUUID "alice"] }) :=
  ⟨Or.inr (by decide),
    (Exists_tri_state alice zeroPool (Or.inr (by decide))).1 _ (by decide),
    (Exists_tri_state alice downPool (Or.inr (by decide))).2.2.1 _ _ (by decide) (by decide)⟩

end accounts

/-! ## Group handlers -/

namespace groups_v1

/-- Running `pure`. -/
theorem Handler.pure_apply {σ α : Type} (a : α) (s : HState σ) :
    (pure a : Handler σ α) s = Step.ok a s := rfl

/-- Running a sequence: the second part runs on what the first left, unless
the first panicked. -/
theorem Handler.bind_apply {σ α β : Type} (m : Handler σ α) (f : α → Handler σ β)
    (s : HState σ) :
    (m >>= f) s = (match m s with
      | .ok a s1 => f a s1
      | .panic s1 => .panic s1) := rfl

/-- C4: in `Delete`, when the identifier is a well-formed integer and
`FindGroupByID` does not resolve it under the session's account, the handler
replies not-found and stops: the only call made is the lookup, so neither
`RemoveGroup` nor `DeleteOrchestratorJob` is called, and the world is the one
the lookup left. -/
theorem Delete_unresolved_is_not_found {σ : Type} (env : Env σ) (session : TsgSession)
    (r : Request) (w w1 : σ) (id : Int) (group : Option ServiceGroup)
    (hid : Atoi r.identifier = (id, none))
    (hfind : env.FindGroupByID w id session.AccountId = Call.ret w1 (group, false)) :
    (serve (Delete env session r) w).trace =
        [Event.FindGroupByID id session.AccountId, Event.NotFound] ∧
      statusCode (serve (Delete env session r) w).trace = some StatusNotFound ∧
      effects (serve (Delete env session r) w).trace = [] ∧
      (serve (Delete env session r) w).world = w1 ∧
      (serve (Delete env session r) w).panicked = false := by
  have h : serve (Delete env session r) w =
      ⟨w1, [Event.FindGroupByID id session.AccountId, Event.NotFound], false⟩ := by
    simp [serve, Delete, hid, hfind, Handler.bind_apply, Handler.pure_apply, emit, call]
  rw [h]
  simp [statusCode, effects, Event.isStoreWrite, Event.isOrchestratorCall]

/-- C4, for identifier 7 on the sample store, which has no such group: the
store is untouched. -/
theorem Delete_unresolved_is_not_found_witness :
    Atoi (requestFor "7").identifier = (7, none) ∧
      sampleEnv.FindGroupByID sampleWorld 7 sampleSession.AccountId =
        Call.ret sampleWorld (none, false) ∧
      (serve (Delete sampleEnv sampleSession (requestFor "7")) sampleWorld).trace =
        [Event.FindGroupByID 7 "acct-1", Event.NotFound] ∧
      (serve (Delete sampleEnv sampleSession (requestFor "7")) sampleWorld).world =
        sampleWorld :=
  have h := Delete_unresolved_is_not_found sampleEnv sampleSession (requestFor "7")
    sampleWorld sampleWorld 7 none (by decide) (by decide)
  ⟨by decide, by decide, h.1, h.2.2.2.1⟩

/-- C5: in `Delete`, when the group resolves, `RemoveGroup` is called before
`DeleteOrchestratorJob` (the writes and remote calls made are `RemoveGroup`,
then possibly `DeleteOrchestratorJob`); if `DeleteOrchestratorJob` fails the
response is the server error carrying that failure and 204 is not written;
204 is written only when `DeleteOrchestratorJob` returned no error. -/
theorem Delete_store_before_orchestrator {σ : Type} (env : Env σ) (session : TsgSession)
    (r : Request) (w w1 : σ) (id : Int) (g : ServiceGroup)
    (hid : Atoi r.identifier = (id, none))
    (hfind : env.FindGroupByID w id session.AccountId = Call.ret w1 (some g, true)) :
    (effects (serve (Delete env session r) w).trace =
        [Event.RemoveGroup g.ID session.AccountId] ∨
      effects (serve (Delete env session r) w).trace =
        [Event.RemoveGroup g.ID session.AccountId,
         Event.DeleteOrchestratorJob session.AccountId (some g)]) ∧
    (∀ w2 res w3 e, env.RemoveGroup w1 g.ID session.AccountId = Call.ret w2 res →
      env.DeleteOrchestratorJob w2 session.AccountId (some g) = Call.ret w3 (some e) →
      (serve (Delete env session r) w).trace =
          [Event.FindGroupByID id session.AccountId,
           Event.RemoveGroup g.ID session.AccountId,
           Event.DeleteOrchestratorJob session.AccountId (some g),
           Event.Error e StatusInternalServerError] ∧
        statusCode (serve (Delete env session r) w).trace = some StatusInternalServerError ∧
        Event.WriteHeader StatusNoContent ∉ (serve (Delete env session r) w).trace) ∧
    (Event.WriteHeader StatusNoContent ∈ (serve (Delete env session r) w).trace →
      ∃ w2 res w3, env.RemoveGroup w1 g.ID session.AccountId = Call.ret w2 res ∧
        env.DeleteOrchestratorJob w2 session.AccountId (some g) = Call.ret w3 none) := by
  cases hrem : env.RemoveGroup w1 g.ID session.AccountId with
  | panic w2 =>
    have h : (serve (Delete env session r) w).trace =
        [Event.FindGroupByID id session.AccountId,
         Event.RemoveGroup g.ID session.AccountId] := by
      simp [serve, Delete, hid, hfind, hrem, Handler.bind_apply, Handler.pure_apply, emit,
        call, deref]
    rw [h]
    simp [effects, Event.isStoreWrite, Event.isOrchestratorCall]
  | ret w2 res =>
    cases hdel : env.DeleteOrchestratorJob w2 session.AccountId (some g) with
    | panic w3 =>
      have h : (serve (Delete env session r) w).trace =
          [Event.FindGroupByID id session.AccountId,
           Event.RemoveGroup g.ID session.AccountId,
           Event.DeleteOrchestratorJob session.AccountId (some g)] := by
        simp [serve, Delete, hid, hfind, hrem, hdel, Handler.bind_apply, Handler.pure_apply,
          emit, call, deref]
      rw [h]
      refine ⟨by simp [effects, Event.isStoreWrite, Event.isOrchestratorCall], ?_, by simp⟩
      intro w2a resa w3a e hr hd
      cases hr
      rw [hdel] at hd
      cases hd
    | ret w3 err =>
      cases err with
      | none =>
        have h : (serve (Delete env session r) w).trace =
            [Event.FindGroupByID id session.AccountId,
             Event.RemoveGroup g.ID session.AccountId,
             Event.DeleteOrchestratorJob session.AccountId (some g),
             Event.WriteHeader StatusNoContent] := by
          simp [serve, Delete, hid, hfind, hrem, hdel, Handler.bind_apply,
            Handler.pure_apply, emit, call, deref]
        rw [h]
        refine ⟨by simp [effects, Event.isStoreWrite, Event.isOrchestratorCall], ?_,
          fun _ => ⟨w2, res, w3, rfl, hdel⟩⟩
        intro w2a resa w3a e hr hd
        cases hr
        rw [hdel] at hd
        cases hd
      | some e =>
        have h : (serve (Delete env session r) w).trace =
            [Event.FindGroupByID id session.AccountId,
             Event.RemoveGroup g.ID session.AccountId,
             Event.DeleteOrchestratorJob session.AccountId (some g),
             Event.Error e StatusInternalServerError] := by
          simp [serve, Delete, hid, hfind, hrem, hdel, Handler.bind_apply,
            Handler.pure_apply, emit, call, deref, httpError]
        rw [h]
        refine ⟨by simp [effects, Event.isStoreWrite, Event.isOrchestratorCall], ?_,
          by simp⟩
        intro w2a resa w3a e1 hr hd
        cases hr
        rw [hdel] at hd
        cases hd
        simp [statusCode]

end groups_v1

namespace groups_v1

/-- C5, for group 1 of the sample store with the orchestrator at fault: the
row is removed first, the failure is reported with status 500, and 204 is not
written. -/
theorem Delete_store_before_orchestrator_witness :
    Atoi (requestFor "1").identifier = (1, none) ∧
      sampleEnv.FindGroupByID orchestratorDownWorld 1 sampleSession.AccountId =
        Call.ret orchestratorDownWorld (some ⟨1, "web", 7, "acct-1", 3, 30⟩, true) ∧
      statusCode
        (serve (Delete sampleEnv sampleSession (requestFor "1")) orchestratorDownWorld).trace =
          some StatusInternalServerError ∧
      Event.WriteHeader StatusNoContent ∉
        (serve (Delete sampleEnv sampleSession (requestFor "1")) orchestratorDownWorld).trace :=
  have h := (Delete_store_before_orchestrator sampleEnv sampleSession (requestFor "1")
    orchestratorDownWorld orchestratorDownWorld 1 ⟨1, "web", 7, "acct-1", 3, 30⟩
    (by decide) (by decide)).2.1
    { orchestratorDownWorld with groups := [⟨2, "db", 9, "acct-1", 1, 60⟩] } none
    { orchestratorDownWorld with groups := [⟨2, "db", 9, "acct-1", 1, 60⟩] }
    (GoError.text "503") (by decide) (by decide)
  ⟨by decide, by decide, h.2.1, h.2.2⟩

/-- C6 as stated fails: the identifier `abc` does not parse as an integer, and
both `Get` and `Delete` reply with status 500, which is in the server-error
class and not in the client-error class. -/
theorem malformed_identifier_is_server_error :
    (Atoi (requestFor "abc").identifier).2 ≠ none ∧
      statusCode (serve (Get sampleEnv sampleSession (requestFor "abc")) sampleWorld).trace =
        some 500 ∧
      statusCode (serve (Delete sampleEnv sampleSession (requestFor "abc")) sampleWorld).trace =
        some 500 ∧
      isClientError 500 = false ∧ isServerError 500 = true := by
  decide

/-- C6, amended: in `Get` and `Delete`, when the identifier does not parse as
an integer the handler replies with the parse error under status 500
(internal server error) and stops: nothing else is written, no store or
orchestrator call is made, and the world is untouched. -/
theorem malformed_identifier_stops {σ : Type} (env : Env σ) (session : TsgSession)
    (r : Request) (w : σ) (e : GoError) (herr : (Atoi r.identifier).2 = some e) :
    serve (Get env session r) w =
        { world := w, trace := [Event.Error e StatusInternalServerError], panicked := false } ∧
      serve (Delete env session r) w =
        { world := w, trace := [Event.Error e StatusInternalServerError], panicked := false } ∧
      statusCode [Event.Error e StatusInternalServerError] = some 500 ∧
      isServerError 500 = true := by
  rcases hp : Atoi r.identifier with ⟨n, err⟩
  rw [hp] at herr
  simp only at herr
  subst herr
  refine ⟨?_, ?_, rfl, rfl⟩
  · simp [serve, Get, hp, Handler.bind_apply, Handler.pure_apply, emit, httpError]
  · simp [serve, Delete, hp, Handler.bind_apply, Handler.pure_apply, emit, httpError]

/-- C6, amended, at the identifier `abc`. -/
theorem malformed_identifier_stops_witness :
    (Atoi (requestFor "abc").identifier).2 =
        some (GoError.NumError "Atoi" "abc" NumErrorKind.ErrSyntax) ∧
      serve (Get sampleEnv sampleSession (requestFor "abc")) sampleWorld =
        { world := sampleWorld,
          trace := [Event.Error (GoError.NumError "Atoi" "abc" NumErrorKind.ErrSyntax) 500],
          panicked := false } :=
  ⟨by decide,
    (malformed_identifier_stops sampleEnv sampleSession (requestFor "abc") sampleWorld
      (GoError.NumError "Atoi" "abc" NumErrorKind.ErrSyntax) (by decide)).1⟩

/-- C3: in `Create`, when the store save fails, which for a call made as a
statement means `SaveGroup` does not return, the operation aborts there: the
handler does not complete, `SaveGroup` is the last thing that happened and the
only store write, no `SubmitOrchestratorJob` (no orchestrator call at all) is
made, no success status is written, and the world is as the failed save left
it. -/
theorem Create_failed_save_aborts {σ : Type} (env : Env σ) (session : TsgSession)
    (r : Request) (w w1 : σ)
    (hfail : env.SaveGroup w session.AccountId (env.Unmarshal r.body).1 = Call.panic w1) :
    (serve (Create env session r) w).panicked = true ∧
      effects (serve (Create env session r) w).trace =
        [Event.SaveGroup session.AccountId (env.Unmarshal r.body).1] ∧
      (∀ e ∈ (serve (Create env session r) w).trace, e.isOrchestratorCall = false) ∧
      (serve (Create env session r) w).trace.getLast? =
        some (Event.SaveGroup session.AccountId (env.Unmarshal r.body).1) ∧
      (statusCode (serve (Create env session r) w).trace = none ∨
        statusCode (serve (Create env session r) w).trace = some StatusInternalServerError) ∧
      (serve (Create env session r) w).world = w1 := by
  generalize ho : serve (Create env session r) w = o
  rcases hu : env.Unmarshal r.body with ⟨group, uerr⟩
  rw [hu] at hfail
  simp only at hfail ⊢
  cases hre : r.readErr <;> cases uerr <;>
    simp only [serve, Create, hu, hre, hfail, Handler.bind_apply, Handler.pure_apply,
      emit, call, httpError, List.nil_append, List.cons_append] at ho <;>
    subst ho <;>
    simp [effects, Event.isStoreWrite, Event.isOrchestratorCall, statusCode]

end groups_v1

namespace groups_v1

/-- C3, with the store at fault: the save does not return, `Create` stops at
it, and the orchestrator holds the jobs it held before. -/
theorem Create_failed_save_aborts_witness :
    sampleEnv.SaveGroup storeDownWorld sampleSession.AccountId
        (sampleEnv.Unmarshal (createRequest bodyWeb).body).1 = Call.panic storeDownWorld ∧
      (serve (Create sampleEnv sampleSession (createRequest bodyWeb)) storeDownWorld).panicked
        = true ∧
      effects
        (serve (Create sampleEnv sampleSession (createRequest bodyWeb)) storeDownWorld).trace
        = [Event.SaveGroup sampleSession.AccountId
            (sampleEnv.Unmarshal (createRequest bodyWeb).body).1] ∧
      (serve (Create sampleEnv sampleSession (createRequest bodyWeb)) storeDownWorld).world
        = storeDownWorld :=
  have h := Create_failed_save_aborts sampleEnv sampleSession (createRequest bodyWeb)
    storeDownWorld storeDownWorld (by decide)
  ⟨by decide, h.1, h.2.1, h.2.2.2.2.2⟩

/-- C9 fails on the code: an update addressed to identifier 1 whose body says
`id` 2 updates row 1 and answers with row 2 (looked up by the body's `id`);
the same update with a body that has no `id` updates row 1, looks up id 0 and
answers not-found. -/
theorem Update_rereads_by_body_id :
    (serve (Update sampleEnv sampleSession (updateRequest "1" bodyApi)) sampleWorld).world.groups
        = [⟨1, "api", 7, "acct-1", 5, 30⟩, ⟨2, "db", 9, "acct-1", 1, 60⟩] ∧
      (serve (Update sampleEnv sampleSession (updateRequest "1" bodyApi)) sampleWorld).trace
        = [Event.UpdateGroup "1" "acct-1" (some ⟨2, "api", 7, "", 5, 30⟩),
           Event.UpdateOrchestratorJob "acct-1" (some ⟨2, "api", 7, "", 5, 30⟩),
           Event.FindGroupByID 2 "acct-1",
           Event.HeaderSet "Content-Type" "application/json; charset=UTF-8",
           Event.Write (marshalGroup (some ⟨2, "db", 9, "acct-1", 1, 60⟩)).1] ∧
      (serve (Update sampleEnv sampleSession (updateRequest "1" bodyWeb)) sampleWorld).trace
        = [Event.UpdateGroup "1" "acct-1" (some ⟨0, "web", 7, "", 3, 30⟩),
           Event.UpdateOrchestratorJob "acct-1" (some ⟨0, "web", 7, "", 3, 30⟩),
           Event.FindGroupByID 0 "acct-1",
           Event.NotFound] := by
  decide

/-- C10 fails on the code: a body that does not decode makes `Create` and
`Update` write the decode error with status 500 and then carry on: the store
write and the orchestrator call are still made, with the partly decoded
group, and the store ends up holding it. -/
theorem undecodable_body_still_written :
    (sampleEnv.Unmarshal bodyBadCapacity).2 ≠ none ∧
      (serve (Create sampleEnv sampleSession (createRequest bodyBadCapacity)) emptyWorld).trace.take 3
        = [Event.Error (GoError.text
             "json: cannot unmarshal string into Go struct field ServiceGroup.capacity of type int")
             500,
           Event.SaveGroup "acct-1" (some ⟨0, "web", 0, "", 0, 0⟩),
           Event.SubmitOrchestratorJob "acct-1" (some ⟨0, "web", 0, "", 0, 0⟩)] ∧
      (serve (Create sampleEnv sampleSession (createRequest bodyBadCapacity)) emptyWorld).world.groups
        = [⟨1, "web", 0, "acct-1", 0, 0⟩] ∧
      (serve (Update sampleEnv sampleSession (updateRequest "2" bodyBadCapacity)) sampleWorld).trace.take 3
        = [Event.Error (GoError.text
             "json: cannot unmarshal string into Go struct field ServiceGroup.capacity of type int")
             500,
           Event.UpdateGroup "2" "acct-1" (some ⟨0, "web", 0, "", 0, 0⟩),
           Event.UpdateOrchestratorJob "acct-1" (some ⟨0, "web", 0, "", 0, 0⟩)] ∧
      (serve (Update sampleEnv sampleSession (updateRequest "2" bodyBadCapacity)) sampleWorld).world.groups
        = [⟨1, "web", 7, "acct-1", 3, 30⟩, ⟨2, "web", 0, "acct-1", 0, 0⟩] := by
  decide

end groups_v1
